import Mathlib

-- Shallow embedding of the pipeline-health scoring engine
-- (server/services/pipelineHealth.ts): a deterministic weighted aggregation
-- of framework coverage, quality signal, recency decay and task progress.
-- JS `number` arithmetic is modelled over ℝ; timestamps are epoch
-- milliseconds modelled as ℤ; the external scoring oracle is modelled as an
-- `Option OracleResult` (`none` = the call failed, threw, or returned
-- unparsable output, all of which throw inside the same try block).

namespace SENA

structure FrameworkNote where
  framework : String
  content : List (String × String)
deriving DecidableEq

structure Transcript where
  content : String
  createdAt : Int
deriving DecidableEq

structure ActionItem where
  status : String
  createdAt : Int
deriving DecidableEq

structure ReadinessFlags where
  economicBuyer : Bool
  champion : Bool
  painExplicit : Bool
  decisionProcess : Bool
  decisionCriteria : Bool
  paperProcess : Bool
deriving DecidableEq

structure OracleResult where
  qualityScore : ℝ
  readinessFlags : ReadinessFlags

structure Breakdown where
  frameworkCoverage : ℝ
  qualitySignal : ℝ
  recency : ℝ
  nbaProgress : ℝ

structure PipelineHealthScore where
  accountId : String
  score : Int
  label : String
  breakdown : Breakdown
  readinessFlags : ReadinessFlags
  lastUpdatedAt : Int

-- `FRAMEWORK_FIELDS` from the source.
def FRAMEWORK_FIELDS (framework : String) : List String :=
  if framework = "MEDDPICC" then
    ["Metrics", "Economic Buyer", "Decision Criteria", "Decision Process",
     "Paper Process", "Identified Pain", "Champion", "Competition"]
  else if framework = "VEF" then
    ["Customer\x27s Pressures", "Customer\x27s Objectives", "Customer\x27s Challenges",
     "LinkedIn\x27s Solutions", "LinkedIn\x27s Experience", "LinkedIn\x27s Unique Value"]
  else if framework = "BANT" then
    ["Budget", "Authority", "Need", "Timeline"]
  else if framework = "Qual-LTS" then
    ["Overall Impression of Opportunity", "First Impressions of POC/Lead",
     "General Company Info", "NÂº of Employees", "Knowledge about LinkedIn"]
  else if framework = "Qual-LSS" then
    ["Date", "Account Name", "Attendees", "Sales Org Structure", "Ideal Buyer personas",
     "Total Addressable Market", "CRM", "Other Sales Systems & Tools", "Sales Process",
     "Average Deal Size", "Average Sales Cycle", "Sales Navigator Use Cases"]
  else []

-- `FRAMEWORK_WEIGHTS` from the source, in `Object.entries` order.
def FRAMEWORK_WEIGHTS : List (String × ℝ) :=
  [("MEDDPICC", 0.4), ("VEF", 0.3), ("BANT", 0.15), ("Qual-LTS", 0.075), ("Qual-LSS", 0.075)]

-- Substring occurrence: `occursIn pat s` is true iff `pat` occurs
-- contiguously in `s` (the JS `String.prototype.includes` / literal-regex
-- alternation test).
def occursIn (pat : List Char) (s : List Char) : Bool :=
  match s with
  | [] => pat.isPrefixOf []
  | _ :: cs => pat.isPrefixOf s || occursIn pat cs

def containsStr (s pat : String) : Bool :=
  occursIn pat.toList s.toList

-- `fieldValue.trim() !== ''`: true iff some character is not whitespace.
def hasNonWhitespace (v : String) : Bool :=
  v.toList.any (fun c => !c.isWhitespace)

-- `isFieldComplete` from the source: JS truthiness of the string, the
-- `typeof` check (values are strings in the model), non-blank after trim,
-- and the two case-sensitive sentinel substring tests.
def isFieldComplete (fieldValue : Option String) : Bool :=
  match fieldValue with
  | none => false
  | some v =>
      !(v == "") && hasNonWhitespace v &&
      !(containsStr v "Unknown (not mentioned)") &&
      !(containsStr v "Not mentioned")

def knownFieldCount (note : FrameworkNote) (fields : List String) : Nat :=
  fields.countP (fun f => isFieldComplete (note.content.lookup f))

-- One step of the `for (const [framework, weight] of Object.entries(...))`
-- loop in `calculateFrameworkCoverage`; the accumulator is
-- (totalWeightedScore, totalWeight).
noncomputable def coverageStep (frameworkNotes : List FrameworkNote)
    (acc : ℝ × ℝ) (fw : String × ℝ) : ℝ × ℝ :=
  match frameworkNotes.find? (fun note => note.framework == fw.1) with
  | none => acc
  | some note =>
      let fields := FRAMEWORK_FIELDS fw.1
      let coverageScore : ℝ := (knownFieldCount note fields : ℝ) / (fields.length : ℝ)
      (acc.1 + coverageScore * fw.2, acc.2 + fw.2)

noncomputable def coverageFold (frameworkNotes : List FrameworkNote) : ℝ × ℝ :=
  FRAMEWORK_WEIGHTS.foldl (coverageStep frameworkNotes) (0, 0)

-- `calculateFrameworkCoverage` from the source.
noncomputable def calculateFrameworkCoverage (frameworkNotes : List FrameworkNote) : ℝ :=
  if frameworkNotes.isEmpty then 0
  else if (coverageFold frameworkNotes).2 > 0 then
    (coverageFold frameworkNotes).1 / (coverageFold frameworkNotes).2
  else 0

-- The four trigger-keyword families of `calculateFallbackQuality`
-- (each regex is an alternation of literal substrings over the lowercased
-- transcript, except the numeric pattern handled separately below).
def roleKeywords : List String :=
  ["ceo", "cfo", "vp", "director", "manager", "head of"]

def dateKeywords : List String :=
  ["next week", "next month", "q1", "q2", "q3", "q4",
   "january", "february", "march", "april", "may", "june", "july",
   "august", "september", "october", "november", "december"]

def verbKeywords : List String :=
  ["will", "plan to", "need to", "going to", "schedule", "follow up"]

-- `content.toLowerCase()`, as a character list.
def lowerChars (s : String) : List Char :=
  s.toList.map Char.toLower

def containsAny (cs : List Char) (pats : List String) : Bool :=
  pats.any (fun p => occursIn p.toList cs)

-- A metric/money unit word immediately after optional whitespace
-- (the `\d+\s*(million|thousand|k|m)` arm of the numeric regex).
def unitWordAfter (cs : List Char) : Bool :=
  let r := cs.dropWhile Char.isWhitespace
  "million".toList.isPrefixOf r || "thousand".toList.isPrefixOf r ||
  "k".toList.isPrefixOf r || "m".toList.isPrefixOf r

-- The numeric regex `\d+[%$]|\$\d+|\d+\s*(million|thousand|k|m)|\d+%`:
-- a match exists iff some digit is immediately followed by '%' or '$',
-- some '$' is immediately followed by a digit, or some digit is followed
-- (after optional whitespace) by a unit word.
def hasNumberTrigger (s : List Char) : Bool :=
  match s with
  | [] => false
  | c :: rest =>
      (c.isDigit && (match rest with
        | [] => false
        | d :: _ => d == '%' || d == '$')) ||
      (c.isDigit && unitWordAfter rest) ||
      (c == '$' && (match rest with
        | [] => false
        | d :: _ => d.isDigit)) ||
      hasNumberTrigger rest

-- The rule-based score over one transcript text (lowercased in the source).
noncomputable def fallbackRuleScore (content : String) : ℝ :=
  (if hasNumberTrigger (lowerChars content) then (0.25 : ℝ) else 0) +
  (if containsAny (lowerChars content) roleKeywords then (0.25 : ℝ) else 0) +
  (if containsAny (lowerChars content) dateKeywords then (0.25 : ℝ) else 0) +
  (if containsAny (lowerChars content) verbKeywords then (0.25 : ℝ) else 0)

-- How many of the four trigger families fire on one transcript text.
def triggerCount (content : String) : Nat :=
  (if hasNumberTrigger (lowerChars content) then 1 else 0) +
  (if containsAny (lowerChars content) roleKeywords then 1 else 0) +
  (if containsAny (lowerChars content) dateKeywords then 1 else 0) +
  (if containsAny (lowerChars content) verbKeywords then 1 else 0)

-- `calculateFallbackQuality` from the source: uses `transcripts[0]`.
noncomputable def calculateFallbackQuality (transcripts : List Transcript) : ℝ :=
  match transcripts with
  | [] => 0
  | t :: _ => fallbackRuleScore t.content

-- The in-place `transcripts.sort((a, b) => b.createdAt - a.createdAt)`:
-- a stable descending insertion sort.
def insertDesc (t : Transcript) : List Transcript → List Transcript
  | [] => [t]
  | u :: us => if u.createdAt < t.createdAt then t :: u :: us else u :: insertDesc t us

def sortByCreatedAtDesc : List Transcript → List Transcript
  | [] => []
  | t :: ts => insertDesc t (sortByCreatedAtDesc ts)

-- `calculateQualitySignal` from the source.  The oracle call, JSON parse
-- and `result.qualityScore || 0` are modelled by `oracle`: `some r` when a
-- quality score was parsed, `none` when the call/parse threw, in which case
-- the catch branch runs the fallback over the (already sorted) array.
noncomputable def calculateQualitySignal (oracle : Option OracleResult)
    (transcripts : List Transcript) (_frameworkNotes : List FrameworkNote) : ℝ :=
  if transcripts.isEmpty then 0
  else
    match oracle with
    | some result => max 0 (min 1 result.qualityScore)
    | none => calculateFallbackQuality (sortByCreatedAtDesc transcripts)

-- `Math.max(...transcripts.map(t => new Date(t.createdAt).getTime()))`
-- over a non-empty array.
def mostRecentTimestamp (t : Transcript) (rest : List Transcript) : Int :=
  (rest.map (fun u => u.createdAt)).foldl max t.createdAt

-- `calculateRecency` from the source; `now` is `Date.now()` in ms.
noncomputable def calculateRecency (now : Int) (transcripts : List Transcript) : ℝ :=
  match transcripts with
  | [] => 0
  | t :: rest =>
      Real.exp (-(((now : ℝ) - (mostRecentTimestamp t rest : ℝ)) / (1000 * 60 * 60 * 24)) / 30)

-- The trailing 30-day window of `calculateNBAProgress`:
-- `new Date(nba.createdAt) >= thirtyDaysAgo` with `thirtyDaysAgo` thirty
-- days (in ms) before `now`.
def recentNBAs (now : Int) (nbas : List ActionItem) : List ActionItem :=
  nbas.filter (fun nba => decide (now - 30 * 86400000 ≤ nba.createdAt))

-- `calculateNBAProgress` from the source.
noncomputable def calculateNBAProgress (now : Int) (nbas : List ActionItem) : ℝ :=
  if nbas.isEmpty then 0
  else if (recentNBAs now nbas).isEmpty then 0
  else
    ((recentNBAs now nbas).countP (fun nba => nba.status == "Completed") : ℝ) /
      ((recentNBAs now nbas).length : ℝ)

def allFlagsFalse : ReadinessFlags :=
  ⟨false, false, false, false, false, false⟩

-- `extractReadinessFlags` from the source: only the first MEDDPICC note is
-- consulted, one flag per named field.
def extractReadinessFlags (frameworkNotes : List FrameworkNote) : ReadinessFlags :=
  match frameworkNotes.find? (fun note => note.framework == "MEDDPICC") with
  | none => allFlagsFalse
  | some note =>
      { economicBuyer := isFieldComplete (note.content.lookup "Economic Buyer")
        champion := isFieldComplete (note.content.lookup "Champion")
        painExplicit := isFieldComplete (note.content.lookup "Identified Pain")
        decisionProcess := isFieldComplete (note.content.lookup "Decision Process")
        decisionCriteria := isFieldComplete (note.content.lookup "Decision Criteria")
        paperProcess := isFieldComplete (note.content.lookup "Paper Process") }

def labelFor (score : Int) : String :=
  if score ≥ 80 then "Healthy" else if score ≥ 50 then "Watchlist" else "At Risk"

-- `calculatePipelineHealth` from the source, after the three record sets
-- have been fetched (fetch failure is handled in `computeHealth` below).
noncomputable def calculatePipelineHealth (accountId : String)
    (frameworkNotes : List FrameworkNote) (transcripts : List Transcript)
    (nbas : List ActionItem) (oracle : Option OracleResult) (now : Int) :
    PipelineHealthScore :=
  let frameworkCoverage := calculateFrameworkCoverage frameworkNotes
  let qualitySignal := calculateQualitySignal oracle transcripts frameworkNotes
  let recency := calculateRecency now transcripts
  let nbaProgress := calculateNBAProgress now nbas
  let score := round ((0.5 * frameworkCoverage + 0.3 * qualitySignal +
      0.1 * recency + 0.1 * nbaProgress) * 100)
  { accountId := accountId
    score := score
    label := labelFor score
    breakdown := ⟨frameworkCoverage, qualitySignal, recency, nbaProgress⟩
    readinessFlags := extractReadinessFlags frameworkNotes
    lastUpdatedAt := now }

structure AccountData where
  frameworkNotes : List FrameworkNote
  transcripts : List Transcript
  nbas : List ActionItem

-- The single-account entry point: the three storage fetches are modelled by
-- `fetch`; `none` = a data-access failure, which propagates (rethrown by the
-- catch in `calculatePipelineHealth`).
noncomputable def computeHealth (fetch : String → Option AccountData)
    (oracle : Option OracleResult) (now : Int) (accountId : String) :
    Option PipelineHealthScore :=
  (fetch accountId).map (fun d =>
    calculatePipelineHealth accountId d.frameworkNotes d.transcripts d.nbas oracle now)

-- The degraded default pushed by the catch branch of
-- `calculateBulkPipelineHealth`.
noncomputable def defaultHealth (accountId : String) (now : Int) : PipelineHealthScore :=
  { accountId := accountId
    score := 0
    label := "At Risk"
    breakdown := ⟨0, 0, 0, 0⟩
    readinessFlags := allFlagsFalse
    lastUpdatedAt := now }

-- `calculateBulkPipelineHealth` from the source.
noncomputable def calculateBulkPipelineHealth (fetch : String → Option AccountData)
    (oracle : String → Option OracleResult) (now : Int)
    (accountIds : List String) : List PipelineHealthScore :=
  accountIds.map (fun accountId =>
    match computeHealth fetch (oracle accountId) now accountId with
    | some health => health
    | none => defaultHealth accountId now)

-- ### Helper lemmas

theorem occursIn_iff (pat : List Char) : ∀ s : List Char, occursIn pat s = true ↔ pat <:+: s := by
  intro s
  induction s with
  | nil =>
      simp [occursIn]
  | cons c cs ih =>
      rw [occursIn]
      simp [List.infix_cons_iff, ih]

theorem le_foldl_max (xs : List Int) : ∀ x : Int, x ≤ xs.foldl max x := by
  induction xs with
  | nil => intro x; exact le_refl x
  | cons c cs ih => intro x; exact le_trans (le_max_left x c) (ih (max x c))

theorem mem_le_foldl_max (xs : List Int) : ∀ x : Int, ∀ y ∈ xs, y ≤ xs.foldl max x := by
  induction xs with
  | nil => intro x y hy; simp at hy
  | cons c cs ih =>
      intro x y hy
      rcases List.mem_cons.mp hy with rfl | hy
      · exact le_trans (le_max_right x y) (le_foldl_max cs (max x y))
      · exact ih (max x c) y hy

theorem foldl_max_mem (xs : List Int) : ∀ x : Int, xs.foldl max x = x ∨ xs.foldl max x ∈ xs := by
  induction xs with
  | nil => intro x; left; rfl
  | cons c cs ih =>
      intro x
      rw [List.foldl_cons]
      rcases ih (max x c) with h | h
      · rcases max_choice x c with hx | hx
        · left; rw [h, hx]
        · right; rw [h, hx]; exact List.mem_cons_self c cs
      · right; exact List.mem_cons_of_mem c h

theorem sortDesc_head_max (l : List Transcript) (hl : l ≠ []) :
    ∃ m ms, sortByCreatedAtDesc l = m :: ms ∧ m ∈ l ∧ ∀ u ∈ l, u.createdAt ≤ m.createdAt := by
  induction l with
  | nil => exact absurd rfl hl
  | cons t ts ih =>
      by_cases hts : ts = []
      · subst hts
        refine ⟨t, [], rfl, List.mem_cons_self t [], ?_⟩
        intro u hu
        rcases List.mem_cons.mp hu with rfl | h
        · exact le_refl _
        · simp at h
      · obtain ⟨m, ms, heq, hmem, hmax⟩ := ih hts
        rw [show sortByCreatedAtDesc (t :: ts) = insertDesc t (sortByCreatedAtDesc ts) from rfl,
          heq, insertDesc]
        split_ifs with h
        · refine ⟨t, m :: ms, rfl, List.mem_cons_self t ts, ?_⟩
          intro u hu
          rcases List.mem_cons.mp hu with rfl | hu
          · exact le_refl _
          · exact le_trans (hmax u hu) (le_of_lt h)
        · refine ⟨m, insertDesc t ms, rfl, List.mem_cons_of_mem t hmem, ?_⟩
          intro u hu
          rcases List.mem_cons.mp hu with rfl | hu
          · exact not_lt.mp h
          · exact hmax u hu

theorem coverageStep_bound (notes : List FrameworkNote) (acc : ℝ × ℝ) (p : String × ℝ)
    (hw : 0 ≤ p.2) (h1 : 0 ≤ acc.1) (h2 : acc.1 ≤ acc.2) :
    0 ≤ (coverageStep notes acc p).1 ∧ (coverageStep notes acc p).1 ≤ (coverageStep notes acc p).2 := by
  unfold coverageStep
  cases hfind : notes.find? (fun note => note.framework == p.1) with
  | none => exact ⟨h1, h2⟩
  | some note =>
      have hs0 : (0 : ℝ) ≤ (knownFieldCount note (FRAMEWORK_FIELDS p.1) : ℝ) /
          ((FRAMEWORK_FIELDS p.1).length : ℝ) :=
        div_nonneg (Nat.cast_nonneg _) (Nat.cast_nonneg _)
      have hs1 : (knownFieldCount note (FRAMEWORK_FIELDS p.1) : ℝ) /
          ((FRAMEWORK_FIELDS p.1).length : ℝ) ≤ 1 := by
        by_cases hlen : (FRAMEWORK_FIELDS p.1).length = 0
        · simp [hlen]
        · have hpos : (0 : ℝ) < ((FRAMEWORK_FIELDS p.1).length : ℝ) := by
            exact_mod_cast Nat.pos_of_ne_zero hlen
          rw [div_le_one hpos]
          exact_mod_cast List.countP_le_length _
      constructor
      · simp only
        nlinarith
      · simp only
        nlinarith

theorem coverageFold_invariant (notes : List FrameworkNote) :
    ∀ (ws : List (String × ℝ)) (acc : ℝ × ℝ), (∀ p ∈ ws, 0 ≤ p.2) →
      0 ≤ acc.1 → acc.1 ≤ acc.2 →
      0 ≤ (ws.foldl (coverageStep notes) acc).1 ∧
        (ws.foldl (coverageStep notes) acc).1 ≤ (ws.foldl (coverageStep notes) acc).2 := by
  intro ws
  induction ws with
  | nil => intro acc _ h1 h2; exact ⟨h1, h2⟩
  | cons p ps ih =>
      intro acc hw h1 h2
      rw [List.foldl_cons]
      have hstep := coverageStep_bound notes acc p (hw p (List.mem_cons_self p ps)) h1 h2
      exact ih _ (fun q hq => hw q (List.mem_cons_of_mem p hq)) hstep.1 hstep.2

theorem frameworkWeights_nonneg : ∀ p ∈ FRAMEWORK_WEIGHTS, (0 : ℝ) ≤ p.2 := by
  intro p hp
  simp [FRAMEWORK_WEIGHTS] at hp
  rcases hp with rfl | rfl | rfl | rfl | rfl <;> norm_num

theorem calculateFrameworkCoverage_mem01 (notes : List FrameworkNote) :
    0 ≤ calculateFrameworkCoverage notes ∧ calculateFrameworkCoverage notes ≤ 1 := by
  have hb := coverageFold_invariant notes FRAMEWORK_WEIGHTS (0, 0)
    frameworkWeights_nonneg le_rfl le_rfl
  unfold calculateFrameworkCoverage
  split_ifs with h1 h2
  · norm_num
  · exact ⟨div_nonneg hb.1 (le_of_lt h2), (div_le_one h2).mpr hb.2⟩
  · norm_num

theorem fallbackRuleScore_eq_triggerCount (c : String) :
    fallbackRuleScore c = 0.25 * (triggerCount c : ℝ) := by
  unfold fallbackRuleScore triggerCount
  split_ifs <;> norm_num

theorem fallbackRuleScore_mem01 (c : String) :
    0 ≤ fallbackRuleScore c ∧ fallbackRuleScore c ≤ 1 := by
  unfold fallbackRuleScore
  split_ifs <;> norm_num

theorem calculateFallbackQuality_mem01 (ts : List Transcript) :
    0 ≤ calculateFallbackQuality ts ∧ calculateFallbackQuality ts ≤ 1 := by
  cases ts with
  | nil => simp [calculateFallbackQuality]
  | cons t rest => exact fallbackRuleScore_mem01 t.content

theorem calculateQualitySignal_mem01 (oracle : Option OracleResult)
    (ts : List Transcript) (notes : List FrameworkNote) :
    0 ≤ calculateQualitySignal oracle ts notes ∧ calculateQualitySignal oracle ts notes ≤ 1 := by
  unfold calculateQualitySignal
  split_ifs with h
  · norm_num
  · cases oracle with
    | some r =>
        constructor
        · exact le_max_left 0 _
        · exact max_le (by norm_num) (min_le_left 1 _)
    | none => exact calculateFallbackQuality_mem01 _

theorem calculateNBAProgress_mem01 (now : Int) (nbas : List ActionItem) :
    0 ≤ calculateNBAProgress now nbas ∧ calculateNBAProgress now nbas ≤ 1 := by
  by_cases h1 : nbas.isEmpty
  · simp [calculateNBAProgress, h1]
  · by_cases h2 : (recentNBAs now nbas).isEmpty
    · simp [calculateNBAProgress, h1, h2]
    · have hne : recentNBAs now nbas ≠ [] := by
        intro hcontra
        rw [hcontra] at h2
        simp at h2
      have hlenR : (0 : ℝ) < ((recentNBAs now nbas).length : ℝ) := by
        exact_mod_cast List.length_pos.mpr hne
      rw [calculateNBAProgress, if_neg h1, if_neg h2]
      constructor
      · exact div_nonneg (Nat.cast_nonneg _) (Nat.cast_nonneg _)
      · rw [div_le_one hlenR]
        exact_mod_cast List.countP_le_length _

-- The maximum timestamp belongs to the list and dominates every timestamp.
theorem mostRecentTimestamp_spec (t : Transcript) (rest : List Transcript) :
    (∃ u ∈ t :: rest, u.createdAt = mostRecentTimestamp t rest) ∧
      ∀ u ∈ t :: rest, u.createdAt ≤ mostRecentTimestamp t rest := by
  constructor
  · rcases foldl_max_mem (rest.map (fun u => u.createdAt)) t.createdAt with hx | hx
    · exact ⟨t, List.mem_cons_self t rest, hx.symm⟩
    · obtain ⟨u, hu, hueq⟩ := List.mem_map.mp hx
      exact ⟨u, List.mem_cons_of_mem t hu, hueq⟩
  · intro u hu
    rcases List.mem_cons.mp hu with rfl | hu
    · exact le_foldl_max _ _
    · exact mem_le_foldl_max _ _ _ (List.mem_map_of_mem (fun v => v.createdAt) hu)

theorem calculateRecency_nonneg (now : Int) (ts : List Transcript) :
    0 ≤ calculateRecency now ts := by
  cases ts with
  | nil => exact le_refl 0
  | cons t rest => exact le_of_lt (Real.exp_pos _)

theorem calculateRecency_le_one (now : Int) (ts : List Transcript)
    (h : ∀ t ∈ ts, t.createdAt ≤ now) : calculateRecency now ts ≤ 1 := by
  cases ts with
  | nil => norm_num [calculateRecency]
  | cons t rest =>
      rw [calculateRecency]
      rw [Real.exp_le_one_iff]
      obtain ⟨u, hu, hueq⟩ := (mostRecentTimestamp_spec t rest).1
      have hle : mostRecentTimestamp t rest ≤ now := hueq ▸ h u hu
      have hcast : ((mostRecentTimestamp t rest : Int) : ℝ) ≤ (now : ℝ) := by exact_mod_cast hle
      have hdays : (0 : ℝ) ≤ ((now : ℝ) - ((mostRecentTimestamp t rest : Int) : ℝ)) /
          (1000 * 60 * 60 * 24) := div_nonneg (by linarith) (by norm_num)
      rw [neg_div]
      linarith

theorem round_nonneg_of_nonneg (x : ℝ) (h0 : 0 ≤ x) : 0 ≤ round x := by
  rw [round_eq]
  exact Int.le_floor.mpr (by push_cast; linarith)

theorem round_le_hundred (x : ℝ) (h1 : x ≤ 100) : round x ≤ 100 := by
  rw [round_eq]
  exact Int.floor_le_iff.mpr (by push_cast; linarith)

-- ### Claim theorems

/-- C6: for an account with zero qualification notes, zero transcripts and
zero action items, `calculatePipelineHealth` returns score 0, label
"At Risk", all four breakdown sub-scores 0 and all six readiness flags
false, whatever the oracle would have answered. -/
theorem c6_empty_account_health (accountId : String) (oracle : Option OracleResult) (now : Int) :
    (calculatePipelineHealth accountId [] [] [] oracle now).score = 0 ∧
    (calculatePipelineHealth accountId [] [] [] oracle now).label = "At Risk" ∧
    (calculatePipelineHealth accountId [] [] [] oracle now).breakdown = ⟨0, 0, 0, 0⟩ ∧
    (calculatePipelineHealth accountId [] [] [] oracle now).readinessFlags = allFlagsFalse := by
  have hc : calculateFrameworkCoverage [] = 0 := by simp [calculateFrameworkCoverage]
  have hq : calculateQualitySignal oracle [] [] = 0 := by simp [calculateQualitySignal]
  have hr : calculateRecency now [] = 0 := rfl
  have hn : calculateNBAProgress now [] = 0 := by simp [calculateNBAProgress]
  have harith : ((0.5 : ℝ) * 0 + 0.3 * 0 + 0.1 * 0 + 0.1 * 0) * 100 = 0 := by norm_num
  have hlab : labelFor 0 = "At Risk" := by decide
  refine ⟨?_, ?_, ?_, ?_⟩
  · simp [calculatePipelineHealth, hc, hq, hr, hn, harith, round_zero]
  · simp [calculatePipelineHealth, hc, hq, hr, hn, harith, round_zero, hlab]
  · simp [calculatePipelineHealth, hc, hq, hr, hn]
  · simp [calculatePipelineHealth, extractReadinessFlags, allFlagsFalse]

/-- C7: the label is a function of the integer score through inclusive
lower-bound bands: 80 and above is "Healthy", 50 to 79 is "Watchlist",
below 50 is "At Risk". -/
theorem c7_label_bands (accountId : String) (notes : List FrameworkNote)
    (ts : List Transcript) (nbas : List ActionItem) (oracle : Option OracleResult) (now : Int) :
    (calculatePipelineHealth accountId notes ts nbas oracle now).label
      = labelFor (calculatePipelineHealth accountId notes ts nbas oracle now).score
    ∧ (∀ s : Int, 80 ≤ s → labelFor s = "Healthy")
    ∧ (∀ s : Int, 50 ≤ s → s < 80 → labelFor s = "Watchlist")
    ∧ (∀ s : Int, s < 50 → labelFor s = "At Risk") := by
  refine ⟨rfl, ?_, ?_, ?_⟩
  · intro s hs
    rw [labelFor, if_pos hs]
  · intro s h1 h2
    rw [labelFor, if_neg (not_le.mpr h2), if_pos h1]
  · intro s h1
    rw [labelFor, if_neg (not_le.mpr (lt_trans h1 (by norm_num))),
      if_neg (not_le.mpr h1)]

/-- C7 witness: the boundary scores 80, 79, 50 and 49 get labels
"Healthy", "Watchlist", "Watchlist" and "At Risk". -/
theorem c7_label_bands_witness :
    labelFor 80 = "Healthy" ∧ labelFor 79 = "Watchlist" ∧
      labelFor 50 = "Watchlist" ∧ labelFor 49 = "At Risk" :=
  ⟨(c7_label_bands "" [] [] [] none 0).2.1 80 (by decide),
   (c7_label_bands "" [] [] [] none 0).2.2.1 79 (by decide) (by decide),
   (c7_label_bands "" [] [] [] none 0).2.2.1 50 (by decide) (by decide),
   (c7_label_bands "" [] [] [] none 0).2.2.2 49 (by decide)⟩

/-- C9: the task-progress sub-score only looks at action items created in
the trailing 30 days: it is 0 when that window is empty (even if older
items exist), and otherwise the completed-to-total ratio over the window. -/
theorem c9_nba_window (now : Int) (nbas : List ActionItem) :
    (recentNBAs now nbas = [] → calculateNBAProgress now nbas = 0)
    ∧ (recentNBAs now nbas ≠ [] → calculateNBAProgress now nbas =
        ((recentNBAs now nbas).countP (fun nba => nba.status == "Completed") : ℝ) /
          ((recentNBAs now nbas).length : ℝ)) := by
  constructor
  · intro hwin
    by_cases h1 : nbas.isEmpty
    · simp [calculateNBAProgress, h1]
    · rw [calculateNBAProgress, if_neg h1, if_pos (by rw [hwin]; rfl)]
  · intro hwin
    have h1 : ¬nbas.isEmpty := by
      intro hcontra
      apply hwin
      have : nbas = [] := List.isEmpty_iff.mp hcontra
      rw [this, recentNBAs]
      rfl
    have h2 : ¬(recentNBAs now nbas).isEmpty = true := by
      intro hcontra
      exact hwin (List.isEmpty_iff.mp hcontra)
    rw [calculateNBAProgress, if_neg h1, if_neg h2]

/-- C9 witness: a single Completed action item 40 days old leaves the
trailing window empty, so task progress is 0 rather than 1. -/
theorem c9_nba_window_witness :
    recentNBAs 5184000000 [⟨"Completed", 1728000000⟩] = [] ∧
      calculateNBAProgress 5184000000 [⟨"Completed", 1728000000⟩] = 0 :=
  ⟨by decide,
   (c9_nba_window 5184000000 [⟨"Completed", 1728000000⟩]).1 (by decide)⟩

/-- C1 (amended): the score equals round(100 * (0.5*coverage + 0.3*quality
+ 0.1*recency + 0.1*taskProgress)) and is always at least 0; it is at most
100 whenever no transcript timestamp lies in the future, but there is no
defensive clamp, so a future-dated transcript can push it above 100. -/
theorem c1_score_formula_and_range (accountId : String) (notes : List FrameworkNote)
    (ts : List Transcript) (nbas : List ActionItem) (oracle : Option OracleResult) (now : Int) :
    (calculatePipelineHealth accountId notes ts nbas oracle now).score =
      round ((0.5 * calculateFrameworkCoverage notes +
        0.3 * calculateQualitySignal oracle ts notes +
        0.1 * calculateRecency now ts + 0.1 * calculateNBAProgress now nbas) * 100)
    ∧ 0 ≤ (calculatePipelineHealth accountId notes ts nbas oracle now).score
    ∧ ((∀ t ∈ ts, t.createdAt ≤ now) →
        (calculatePipelineHealth accountId notes ts nbas oracle now).score ≤ 100) := by
  have hc := calculateFrameworkCoverage_mem01 notes
  have hq := calculateQualitySignal_mem01 oracle ts notes
  have hr0 := calculateRecency_nonneg now ts
  have hn := calculateNBAProgress_mem01 now nbas
  have hsc : (calculatePipelineHealth accountId notes ts nbas oracle now).score =
      round ((0.5 * calculateFrameworkCoverage notes +
        0.3 * calculateQualitySignal oracle ts notes +
        0.1 * calculateRecency now ts + 0.1 * calculateNBAProgress now nbas) * 100) := rfl
  refine ⟨hsc, ?_, ?_⟩
  · rw [hsc]
    apply round_nonneg_of_nonneg
    nlinarith [hc.1, hq.1, hr0, hn.1]
  · intro hts
    have hr1 := calculateRecency_le_one now ts hts
    rw [hsc]
    apply round_le_hundred
    nlinarith [hc.1, hc.2, hq.1, hq.2, hr0, hr1, hn.1, hn.2]

/-- C1 witness: on an account with one transcript dated at `now`, the score
formula holds and the score is within [0, 100]. -/
theorem c1_score_formula_and_range_witness :
    (∀ t ∈ ([⟨"", 0⟩] : List Transcript), t.createdAt ≤ (0 : Int)) ∧
      0 ≤ (calculatePipelineHealth "a" [] [⟨"", 0⟩] [] none 0).score ∧
      (calculatePipelineHealth "a" [] [⟨"", 0⟩] [] none 0).score ≤ 100 :=
  ⟨by decide,
   (c1_score_formula_and_range "a" [] [⟨"", 0⟩] [] none 0).2.1,
   (c1_score_formula_and_range "a" [] [⟨"", 0⟩] [] none 0).2.2 (by decide)⟩

/-- C1 counterexample: the claim's range [0,100] fails for producible
inputs — with a single transcript timestamped 300 days in the future
(recency = exp 10) and everything else empty, the score exceeds 100. -/
theorem c1_counterexample :
    100 < (calculatePipelineHealth "acct" [] [⟨"", 25920000000⟩] [] none 0).score := by
  have ht1 : hasNumberTrigger (lowerChars "") = false := by decide
  have ht2 : containsAny (lowerChars "") roleKeywords = false := by decide
  have ht3 : containsAny (lowerChars "") dateKeywords = false := by decide
  have ht4 : containsAny (lowerChars "") verbKeywords = false := by decide
  have hfb : fallbackRuleScore "" = 0 := by
    rw [fallbackRuleScore, ht1, ht2, ht3, ht4]
    norm_num
  have hq : calculateQualitySignal none [⟨"", 25920000000⟩] [] = 0 := by
    simp [calculateQualitySignal, sortByCreatedAtDesc, insertDesc, calculateFallbackQuality, hfb]
  have hc : calculateFrameworkCoverage [] = 0 := by simp [calculateFrameworkCoverage]
  have hn : calculateNBAProgress 0 [] = 0 := by simp [calculateNBAProgress]
  have hr : calculateRecency 0 [⟨"", 25920000000⟩] = Real.exp 10 := by
    rw [calculateRecency]
    norm_num [mostRecentTimestamp]
  have hsc : (calculatePipelineHealth "acct" [] [⟨"", 25920000000⟩] [] none 0).score =
      round ((0.5 * (0 : ℝ) + 0.3 * 0 + 0.1 * Real.exp 10 + 0.1 * 0) * 100) := by
    simp [calculatePipelineHealth, hc, hq, hr, hn]
  have h11 : (11 : ℝ) ≤ Real.exp 10 := by
    have := Real.add_one_le_exp (10 : ℝ)
    linarith
  have hround : (110 : ℤ) ≤ round ((0.5 * (0 : ℝ) + 0.3 * 0 + 0.1 * Real.exp 10 + 0.1 * 0) * 100) := by
    rw [round_eq]
    apply Int.le_floor.mpr
    push_cast
    nlinarith
  rw [hsc]
  exact lt_of_lt_of_le (by norm_num) hround

/-- C8: recency is 0 with no transcripts; otherwise it equals
exp(-days_since/30) of the elapsed time since the most recent transcript
timestamp, is exactly 1 at zero elapsed days, within 1e-3 of exp(-1) at 30
elapsed days, and strictly decreases as elapsed time grows. -/
theorem c8_recency_decay (now now1 now2 : Int) (ts : List Transcript) :
    calculateRecency now [] = 0
    ∧ (ts ≠ [] → ∃ m : Int, (∃ u ∈ ts, u.createdAt = m) ∧ (∀ u ∈ ts, u.createdAt ≤ m)
        ∧ calculateRecency now ts = Real.exp (-(((now : ℝ) - (m : ℝ)) / 86400000) / 30)
        ∧ (now = m → calculateRecency now ts = 1)
        ∧ (now = m + 2592000000 → |calculateRecency now ts - Real.exp (-1)| ≤ 1 / 1000))
    ∧ (ts ≠ [] → now1 < now2 → calculateRecency now2 ts < calculateRecency now1 ts) := by
  refine ⟨rfl, ?_, ?_⟩
  · intro hne
    cases ts with
    | nil => exact absurd rfl hne
    | cons t rest =>
        obtain ⟨hmem, hmax⟩ := mostRecentTimestamp_spec t rest
        refine ⟨mostRecentTimestamp t rest, hmem, hmax, ?_, ?_, ?_⟩
        · rw [calculateRecency]
          norm_num
        · intro hnow
          rw [calculateRecency, hnow]
          norm_num [Real.exp_zero]
        · intro hnow
          rw [calculateRecency, hnow]
          have harg : -((((mostRecentTimestamp t rest + 2592000000 : Int) : ℝ) -
              ((mostRecentTimestamp t rest : Int) : ℝ)) / (1000 * 60 * 60 * 24)) / 30 = -1 := by
            push_cast
            ring_nf
          rw [harg]
          simp
  · intro hne h12
    cases ts with
    | nil => exact absurd rfl hne
    | cons t rest =>
        rw [calculateRecency, calculateRecency]
        apply Real.exp_lt_exp.mpr
        have hcast : (now1 : ℝ) < (now2 : ℝ) := by exact_mod_cast h12
        have hm : ((mostRecentTimestamp t rest : Int) : ℝ) = (mostRecentTimestamp t rest : ℝ) := rfl
        linarith

/-- C8 witness: with one transcript at time 0, recency 30 days later is
strictly below recency at time 0. -/
theorem c8_recency_decay_witness :
    ([⟨"", 0⟩] : List Transcript) ≠ [] ∧ (0 : Int) < 2592000000 ∧
      calculateRecency 2592000000 [⟨"", 0⟩] < calculateRecency 0 [⟨"", 0⟩] :=
  ⟨by decide, by decide,
   (c8_recency_decay 0 0 2592000000 [⟨"", 0⟩]).2.2 (by decide) (by decide)⟩

/-- C3: when the oracle call fails, throws or returns unparsable output
(modelled by `oracle = none`), the quality signal is the deterministic
rule-based fallback over the most recent transcript's text, worth 0.25 per
satisfied trigger family and at most 1.0; and an oracle failure never makes
the aggregator entry point fail (it fails exactly when the data fetch
does). -/
theorem c3_quality_fallback (ts : List Transcript) (notes : List FrameworkNote)
    (fetch : String → Option AccountData) (now : Int) (accountId : String)
    (hne : ts ≠ []) :
    (∃ m, m ∈ ts ∧ (∀ u ∈ ts, u.createdAt ≤ m.createdAt)
      ∧ calculateQualitySignal none ts notes = fallbackRuleScore m.content
      ∧ fallbackRuleScore m.content = 0.25 * (triggerCount m.content : ℝ)
      ∧ fallbackRuleScore m.content ≤ 1)
    ∧ (computeHealth fetch none now accountId).isSome = (fetch accountId).isSome := by
  constructor
  · obtain ⟨m, ms, heq, hmem, hmax⟩ := sortDesc_head_max ts hne
    refine ⟨m, hmem, hmax, ?_, fallbackRuleScore_eq_triggerCount m.content,
      (fallbackRuleScore_mem01 m.content).2⟩
    have hemp : ts.isEmpty = false := by
      cases ts with
      | nil => exact absurd rfl hne
      | cons a b => rfl
    simp [calculateQualitySignal, hemp, heq, calculateFallbackQuality]
  · cases hfetch : fetch accountId <;> simp [computeHealth, hfetch]

/-- C3 witness: a transcript containing a dollar figure, a role title, a
quarter marker and a commitment verb, under a failed oracle. -/
theorem c3_quality_fallback_witness :
    ([⟨"the vp said we will spend $50k in q3", 7⟩] : List Transcript) ≠ [] ∧
    ((∃ m, m ∈ ([⟨"the vp said we will spend $50k in q3", 7⟩] : List Transcript)
      ∧ (∀ u ∈ ([⟨"the vp said we will spend $50k in q3", 7⟩] : List Transcript),
          u.createdAt ≤ m.createdAt)
      ∧ calculateQualitySignal none [⟨"the vp said we will spend $50k in q3", 7⟩] []
          = fallbackRuleScore m.content
      ∧ fallbackRuleScore m.content = 0.25 * (triggerCount m.content : ℝ)
      ∧ fallbackRuleScore m.content ≤ 1)
    ∧ (computeHealth (fun _ => none) none 0 "a").isSome = ((fun _ => none : String → Option AccountData) "a").isSome) :=
  ⟨by decide,
   c3_quality_fallback [⟨"the vp said we will spend $50k in q3", 7⟩] [] (fun _ => none) 0 "a"
     (by decide)⟩

/-- C4: the reported readiness flags are a function of the MEDDPICC note's
fields only, identical across runs that differ only in the oracle's answer
(score and side-channel flags), and all six are false when no MEDDPICC note
exists or when all of its fields are unknown. -/
theorem c4_flags_oracle_independent (accountId : String) (notes : List FrameworkNote)
    (ts : List Transcript) (nbas : List ActionItem) (o1 o2 : Option OracleResult) (now : Int) :
    (calculatePipelineHealth accountId notes ts nbas o1 now).readinessFlags
      = (calculatePipelineHealth accountId notes ts nbas o2 now).readinessFlags
    ∧ (calculatePipelineHealth accountId notes ts nbas o1 now).readinessFlags
      = extractReadinessFlags notes
    ∧ (notes.find? (fun note => note.framework == "MEDDPICC") = none →
        extractReadinessFlags notes = allFlagsFalse)
    ∧ (∀ n, notes.find? (fun note => note.framework == "MEDDPICC") = some n →
        (∀ f ∈ FRAMEWORK_FIELDS "MEDDPICC", isFieldComplete (n.content.lookup f) = false) →
        extractReadinessFlags notes = allFlagsFalse) := by
  refine ⟨rfl, rfl, ?_, ?_⟩
  · intro hfind
    simp [extractReadinessFlags, hfind]
  · intro n hfind hall
    have h1 := hall "Economic Buyer" (by decide)
    have h2 := hall "Champion" (by decide)
    have h3 := hall "Identified Pain" (by decide)
    have h4 := hall "Decision Process" (by decide)
    have h5 := hall "Decision Criteria" (by decide)
    have h6 := hall "Paper Process" (by decide)
    simp [extractReadinessFlags, hfind, allFlagsFalse, h1, h2, h3, h4, h5, h6]

/-- C4 witness: a MEDDPICC note with its only field unknown, under a failed
oracle vs an oracle returning score 1 and all-true side-channel flags: the
reported flags agree and are all false. -/
theorem c4_flags_oracle_independent_witness :
    (∀ f ∈ FRAMEWORK_FIELDS "MEDDPICC",
      isFieldComplete ((⟨"MEDDPICC", [("Economic Buyer", "Unknown (not mentioned)")]⟩ :
        FrameworkNote).content.lookup f) = false)
    ∧ (calculatePipelineHealth "a" [⟨"MEDDPICC", [("Economic Buyer", "Unknown (not mentioned)")]⟩]
        [] [] (some ⟨1, ⟨true, true, true, true, true, true⟩⟩) 0).readinessFlags
      = (calculatePipelineHealth "a" [⟨"MEDDPICC", [("Economic Buyer", "Unknown (not mentioned)")]⟩]
        [] [] none 0).readinessFlags
    ∧ extractReadinessFlags [⟨"MEDDPICC", [("Economic Buyer", "Unknown (not mentioned)")]⟩]
      = allFlagsFalse :=
  ⟨by decide,
   (c4_flags_oracle_independent "a"
     [⟨"MEDDPICC", [("Economic Buyer", "Unknown (not mentioned)")]⟩] [] []
     (some ⟨1, ⟨true, true, true, true, true, true⟩⟩) none 0).1,
   (c4_flags_oracle_independent "a"
     [⟨"MEDDPICC", [("Economic Buyer", "Unknown (not mentioned)")]⟩] [] [] none none 0).2.2.2
     ⟨"MEDDPICC", [("Economic Buyer", "Unknown (not mentioned)")]⟩ (by decide) (by decide)⟩

/-- C2: the bulk runner returns one result per input id, in input order; a
failed per-account computation is replaced by the fixed degraded default
(score 0, "At Risk", zero sub-scores, all flags false, timestamp = now)
instead of aborting the batch. -/
theorem c2_bulk_health (fetch : String → Option AccountData)
    (oracle : String → Option OracleResult) (now : Int) (accountIds : List String) :
    (calculateBulkPipelineHealth fetch oracle now accountIds).length = accountIds.length
    ∧ (∀ i (h : i < accountIds.length),
        (calculateBulkPipelineHealth fetch oracle now accountIds)[i]? =
          some (match computeHealth fetch (oracle accountIds[i]) now accountIds[i] with
            | some health => health
            | none => defaultHealth accountIds[i] now))
    ∧ (∀ i (h : i < accountIds.length), fetch accountIds[i] = none →
        (calculateBulkPipelineHealth fetch oracle now accountIds)[i]? =
          some (defaultHealth accountIds[i] now))
    ∧ (∀ accountId, defaultHealth accountId now =
        ⟨accountId, 0, "At Risk", ⟨0, 0, 0, 0⟩, allFlagsFalse, now⟩) := by
  refine ⟨?_, ?_, ?_, fun _ => rfl⟩
  · simp [calculateBulkPipelineHealth]
  · intro i h
    rw [calculateBulkPipelineHealth, List.getElem?_map, List.getElem?_eq_getElem h]
    rfl
  · intro i h hf
    rw [calculateBulkPipelineHealth, List.getElem?_map, List.getElem?_eq_getElem h]
    simp [computeHealth, hf]

/-- C2 witness: accounts [A, B, C] where B's fetch fails: three results in
order and the degraded default at position 1. -/
theorem c2_bulk_health_witness :
    (1 : Nat) < (["A", "B", "C"] : List String).length
    ∧ (fun s => if s = "B" then none else some (⟨[], [], []⟩ : AccountData)) "B" = none
    ∧ (calculateBulkPipelineHealth
        (fun s => if s = "B" then none else some (⟨[], [], []⟩ : AccountData))
        (fun _ => none) 5 ["A", "B", "C"]).length = ["A", "B", "C"].length
    ∧ (calculateBulkPipelineHealth
        (fun s => if s = "B" then none else some (⟨[], [], []⟩ : AccountData))
        (fun _ => none) 5 ["A", "B", "C"])[1]? = some (defaultHealth "B" 5) :=
  ⟨by decide, rfl,
   (c2_bulk_health (fun s => if s = "B" then none else some (⟨[], [], []⟩ : AccountData))
     (fun _ => none) 5 ["A", "B", "C"]).1,
   (c2_bulk_health (fun s => if s = "B" then none else some (⟨[], [], []⟩ : AccountData))
     (fun _ => none) 5 ["A", "B", "C"]).2.2.1 1 (by decide) rfl⟩

-- The "known" test exactly as the claim words it: a non-empty string that
-- does not EQUAL the first sentinel and does not CONTAIN the second.
def claimFieldKnown (v : String) : Bool :=
  !(v == "") && !(v == "Unknown (not mentioned)") && !(containsStr v "Not mentioned")

/-- C5 counterexample: a value that properly contains the first sentinel is
known per the claim, but the code tests substring containment, not
equality, and rejects it. -/
theorem c5_counterexample :
    claimFieldKnown "Unknown (not mentioned) yet discussed at length" = true
    ∧ isFieldComplete (some "Unknown (not mentioned) yet discussed at length") = false := by
  constructor <;> decide

theorem occursIn_eq_false_iff (pat s : List Char) : occursIn pat s = false ↔ ¬(pat <:+: s) := by
  rw [Bool.eq_false_iff]
  exact not_congr (occursIn_iff pat s)

/-- C5 (amended): a field value counts as known iff it has at least one
non-whitespace character and contains neither "Unknown (not mentioned)" nor
"Not mentioned" as a case-sensitive substring (both sentinels are
containment tests, and whitespace-only values are rejected). -/
theorem c5_field_known_iff (v : String) :
    (isFieldComplete (some v) = true ↔
      (∃ c ∈ v.toList, c.isWhitespace = false)
      ∧ ¬("Unknown (not mentioned)".toList <:+: v.toList)
      ∧ ¬("Not mentioned".toList <:+: v.toList))
    ∧ isFieldComplete none = false := by
  refine ⟨?_, rfl⟩
  constructor
  · intro h
    rw [isFieldComplete] at h
    simp [containsStr, hasNonWhitespace, occursIn_eq_false_iff] at h
    tauto
  · intro h
    obtain ⟨⟨c, hc, hcw⟩, h3, h4⟩ := h
    have hvne : v ≠ "" := by
      intro hv
      rw [hv] at hc
      simp at hc
    have hex : ∃ x ∈ v.toList, x.isWhitespace = false := ⟨c, hc, hcw⟩
    rw [isFieldComplete]
    simp [containsStr, hasNonWhitespace, occursIn_eq_false_iff]
    tauto

/-- C5 witness: an ordinary filled-in value is accepted as known. -/
theorem c5_field_known_iff_witness :
    isFieldComplete (some "Budget approved: 100k") = true :=
  (c5_field_known_iff "Budget approved: 100k").1.mpr
    ⟨⟨'B', by decide, by decide⟩, by decide, by decide⟩

theorem coverage_via_fold (l : List FrameworkNote) :
    calculateFrameworkCoverage l =
      (if (coverageFold l).2 > 0 then (coverageFold l).1 / (coverageFold l).2 else 0) := by
  by_cases hemp : l.isEmpty
  · rw [List.isEmpty_iff.mp hemp]
    have hfold : coverageFold ([] : List FrameworkNote) = (0, 0) := rfl
    rw [hfold]
    simp [calculateFrameworkCoverage]
  · simp [calculateFrameworkCoverage, hemp]

theorem coverageFold_congr (l1 l2 : List FrameworkNote) :
    ∀ (ws : List (String × ℝ)) (acc : ℝ × ℝ),
      (∀ p ∈ ws, l1.find? (fun note => note.framework == p.1)
        = l2.find? (fun note => note.framework == p.1)) →
      ws.foldl (coverageStep l1) acc = ws.foldl (coverageStep l2) acc := by
  intro ws
  induction ws with
  | nil => intro acc _; rfl
  | cons p ps ih =>
      intro acc h
      rw [List.foldl_cons, List.foldl_cons]
      have hstep : coverageStep l1 acc p = coverageStep l2 acc p := by
        rw [coverageStep, coverageStep, h p (List.mem_cons_self p ps)]
      rw [hstep]
      exact ih _ (fun q hq => h q (List.mem_cons_of_mem p hq))

/-- C10: coverage and the field-derived readiness flags are computed from
the first note per framework in the data-layer list, so any two note lists
whose per-framework first matches coincide yield identical coverage and
identical readiness flags (later duplicates may be replaced or reordered
freely). -/
theorem c10_first_note_wins (l1 l2 : List FrameworkNote)
    (h : ∀ fw ∈ (["MEDDPICC", "VEF", "BANT", "Qual-LTS", "Qual-LSS"] : List String),
      l1.find? (fun note => note.framework == fw)
        = l2.find? (fun note => note.framework == fw)) :
    calculateFrameworkCoverage l1 = calculateFrameworkCoverage l2
    ∧ extractReadinessFlags l1 = extractReadinessFlags l2 := by
  constructor
  · have hfold : coverageFold l1 = coverageFold l2 := by
      rw [coverageFold, coverageFold]
      apply coverageFold_congr
      intro p hp
      have hmem : p.1 ∈ (["MEDDPICC", "VEF", "BANT", "Qual-LTS", "Qual-LSS"] : List String) := by
        simp [FRAMEWORK_WEIGHTS] at hp
        rcases hp with rfl | rfl | rfl | rfl | rfl <;> simp
      exact h p.1 hmem
    rw [coverage_via_fold l1, coverage_via_fold l2, hfold]
  · rw [extractReadinessFlags, extractReadinessFlags, h "MEDDPICC" (by simp)]

/-- C10 witness: appending a second MEDDPICC note after an existing one
changes neither coverage nor readiness flags. -/
theorem c10_first_note_wins_witness :
    (∀ fw ∈ (["MEDDPICC", "VEF", "BANT", "Qual-LTS", "Qual-LSS"] : List String),
      ([⟨"MEDDPICC", [("Metrics", "3x ROI")]⟩] : List FrameworkNote).find?
          (fun note => note.framework == fw)
        = ([⟨"MEDDPICC", [("Metrics", "3x ROI")]⟩,
            ⟨"MEDDPICC", [("Metrics", "Unknown (not mentioned)")]⟩] :
            List FrameworkNote).find? (fun note => note.framework == fw))
    ∧ calculateFrameworkCoverage [⟨"MEDDPICC", [("Metrics", "3x ROI")]⟩]
        = calculateFrameworkCoverage [⟨"MEDDPICC", [("Metrics", "3x ROI")]⟩,
            ⟨"MEDDPICC", [("Metrics", "Unknown (not mentioned)")]⟩]
    ∧ extractReadinessFlags [⟨"MEDDPICC", [("Metrics", "3x ROI")]⟩]
        = extractReadinessFlags [⟨"MEDDPICC", [("Metrics", "3x ROI")]⟩,
            ⟨"MEDDPICC", [("Metrics", "Unknown (not mentioned)")]⟩] :=
  ⟨by decide,
   (c10_first_note_wins [⟨"MEDDPICC", [("Metrics", "3x ROI")]⟩]
     [⟨"MEDDPICC", [("Metrics", "3x ROI")]⟩,
      ⟨"MEDDPICC", [("Metrics", "Unknown (not mentioned)")]⟩] (by decide)).1,
   (c10_first_note_wins [⟨"MEDDPICC", [("Metrics", "3x ROI")]⟩]
     [⟨"MEDDPICC", [("Metrics", "3x ROI")]⟩,
      ⟨"MEDDPICC", [("Metrics", "Unknown (not mentioned)")]⟩] (by decide)).2⟩

end SENA
